import Mathlib

/-!
Verification of the novel_translator repository's chapter-ingestion pipeline,
retry wrapper, content sanitizer and favorites toggle, as shallowly embedded
Lean definitions translated from the JavaScript sources
(src/server.js, src/unnamed/part_000 .. part_003, src/models/*).

Conventions of the embedding:
* JavaScript runtime values that the routes inspect by truthiness are
  modelled by the inductive type JsVal (undefined, null, number, string).
* Chapter numbers are JS floats in the source; every claim under study only
  exercises integral values, so numbers are embedded as Int.
* Stateful route handlers become pure functions from their inputs (request
  body fields, current database rows, the current clock value) to the rows
  they write.
-/

namespace NovelTranslator

/-- Subset of JavaScript runtime values inspected by the route handlers:
undefined (missing body field), null (JSON null), numbers and strings. -/
inductive JsVal where
  | undef
  | null
  | num (n : Int)
  | str (s : String)
deriving DecidableEq

/-- JavaScript truthiness for the values of JsVal: undefined, null, 0 and
the empty string are falsy, everything else is truthy. -/
def truthy : JsVal → Bool
  | .undef => false
  | .null => false
  | .num n => n != 0
  | .str s => s != ""

/-- The JavaScript expression a || b restricted to JsVal. -/
def jsOr (a b : JsVal) : JsVal := if truthy a then a else b

/-- String conversion of a JsVal as performed by a JS template literal. -/
def jsToString : JsVal → String
  | .undef => "undefined"
  | .null => "null"
  | .num n => toString n
  | .str s => s

/-- Largest chapterNumber among a novel's chapters, none when the novel has
no chapters.  Embeds Chapter.findOne({novelId}).sort({chapterNumber : -1})
from the chapter-creation routes (src/server.js line 208). -/
def maxChapterNumber : List Int → Option Int
  | [] => none
  | x :: xs =>
    some (match maxChapterNumber xs with
      | none => x
      | some m => max x m)

/-- The nextNumber computation of the chapter-creation routes
(src/server.js line 209): lastChapter ? lastChapter.chapterNumber + 1 : 1. -/
def nextNumber (chapters : List Int) : Int :=
  match maxChapterNumber chapters with
  | none => 1
  | some m => m + 1

/-- The chapter number stored by the manual branch of
POST /novel/:id/chapters in src/server.js line 214:
manualChapterNumber || nextNumber. -/
def manualAssignedNumber (manualChapterNumber : JsVal) (chapters : List Int) : JsVal :=
  jsOr manualChapterNumber (.num (nextNumber chapters))

/-- A JavaScript Error as the retry wrapper inspects it: only its message
string is ever consulted. -/
structure JsError where
  message : String
deriving DecidableEq

/-- Substring containment, as JavaScript's String.prototype.includes. -/
def strContains (s sub : String) : Bool :=
  (List.range (s.length + 1)).any fun i => sub.data.isPrefixOf (s.data.drop i)

/-- Error classification of generateWithRetry in src/unnamed/part_001
lines 422-428: an error is retried exactly when its message contains
the substring 429, 503 or Quota. -/
def isRetryable (e : JsError) : Bool :=
  strContains e.message "429" || strContains e.message "503" || strContains e.message "Quota"

/-- Shape of the JSON object the translation provider is asked to return
(part_001 lines 523-529): each field is a JsVal because the provider may
return null or omit a field (undefined). -/
structure GenData where
  chapterNumber : JsVal
  title : JsVal
  originalTitle : JsVal
  translatedContent : JsVal
deriving DecidableEq

/-- Result of a run of generateWithRetry: either a returned value (none
models falling off the loop and returning undefined, which happens only
when retries = 0) or a propagated exception. -/
inductive RetryOutcome where
  | ok (data : Option GenData)
  | err (e : JsError)
deriving DecidableEq

/-- Observable trace of a run of generateWithRetry: its outcome, the number
of provider calls performed, and the number of sleeps awaited. -/
structure RetryResult where
  outcome : RetryOutcome
  calls : Nat
  sleeps : Nat
deriving DecidableEq

/-- The for-loop of generateWithRetry in src/unnamed/part_001 lines 415-431.
attempt i bundles model.generateContent for loop index i together with
JSON.parse of the response text (both inside the try block).  The loop
counter is represented by the current index i and by remaining = retries - i,
so the JS test i === retries - 1 becomes remaining = 1.  Classified variant:
a non-retryable error propagates at once; a retryable error sleeps and
retries unless this was the last attempt. -/
def loopClassified (attempt : Nat → Except JsError GenData) (i : Nat) : Nat → RetryResult
  | 0 => { outcome := .ok none, calls := 0, sleeps := 0 }
  | remaining + 1 =>
    match attempt i with
    | .ok d => { outcome := .ok (some d), calls := 1, sleeps := 0 }
    | .error e =>
      if isRetryable e then
        match remaining with
        | 0 => { outcome := .err e, calls := 1, sleeps := 0 }
        | r + 1 =>
          let rest := loopClassified attempt (i + 1) (r + 1)
          { outcome := rest.outcome, calls := rest.calls + 1, sleeps := rest.sleeps + 1 }
      else { outcome := .err e, calls := 1, sleeps := 0 }

/-- The for-loop of generateWithRetry in src/server.js lines 59-71 (identical
in src/unnamed/part_003 lines 56-68): no error classification, every error is
retried after a sleep unless this was the last attempt. -/
def loopNaive (attempt : Nat → Except JsError GenData) (i : Nat) : Nat → RetryResult
  | 0 => { outcome := .ok none, calls := 0, sleeps := 0 }
  | remaining + 1 =>
    match attempt i with
    | .ok d => { outcome := .ok (some d), calls := 1, sleeps := 0 }
    | .error e =>
      match remaining with
      | 0 => { outcome := .err e, calls := 1, sleeps := 0 }
      | r + 1 =>
        let rest := loopNaive attempt (i + 1) (r + 1)
        { outcome := rest.outcome, calls := rest.calls + 1, sleeps := rest.sleeps + 1 }

/-- generateWithRetry of src/unnamed/part_001 line 415: gen i is the provider
call of attempt i (the i-th model.generateContent plus response.text()),
parse is JSON.parse specialised to the expected object shape. -/
def generateWithRetryClassified (gen : Nat → Except JsError String)
    (parse : String → Except JsError GenData) (retries : Nat) : RetryResult :=
  loopClassified (fun i => (gen i).bind parse) 0 retries

/-- generateWithRetry of src/server.js line 59. -/
def generateWithRetryNaive (gen : Nat → Except JsError String)
    (parse : String → Except JsError GenData) (retries : Nat) : RetryResult :=
  loopNaive (fun i => (gen i).bind parse) 0 retries

/-- Final chapter number of the auto branch in src/unnamed/part_001
lines 536-538: the AI value whenever it is neither null nor undefined
(a JS strict-inequality check), else nextNumber. -/
def finalChapterNumberAuto (chapterNumber : JsVal) (next : Int) : JsVal :=
  if chapterNumber ≠ JsVal.null ∧ chapterNumber ≠ JsVal.undef then chapterNumber
  else .num next

/-- Final chapter number of the auto branch in src/server.js line 235:
data.chapterNumber || nextNumber, a truthiness check. -/
def finalNumberServer (chapterNumber : JsVal) (next : Int) : JsVal :=
  jsOr chapterNumber (.num next)

/-- Final title of the auto branch in src/server.js line 236: the AI title
is used verbatim when truthy, with no trimming or marker stripping. -/
def serverFinalTitle (title finalNumber : JsVal) : String :=
  if truthy title then "ตอนที่ " ++ jsToString finalNumber ++ " : " ++ jsToString title
  else "ตอนที่ " ++ jsToString finalNumber

/-- Whitespace class of JavaScript's \s and String.prototype.trim,
restricted to the common ASCII whitespace characters. -/
def isJsSpace (c : Char) : Bool :=
  c = ' ' || c = '\t' || c = '\n' || c = '\r' || c.val = 11 || c.val = 12

/-- JavaScript String.prototype.trim. -/
def jsTrim (s : String) : String :=
  ⟨((s.data.dropWhile isJsSpace).reverse.dropWhile isJsSpace).reverse⟩

/-- The alternatives of the leading chapter-marker group in the regex of
src/unnamed/part_001 line 542, in source order. -/
def markerWords : List (List Char) :=
  ["ตอนที่".data, "บทที่".data, "Chapter".data, "Episode".data, "Ep".data, "第".data]

/-- Case-insensitive literal prefix match (the regex carries the i flag),
returning the rest of the input when the prefix matches. -/
def dropPrefixCI : List Char → List Char → Option (List Char)
  | [], l => some l
  | _, [] => none
  | p :: ps, c :: cs => if p.toLower = c.toLower then dropPrefixCI ps cs else none

/-- Character class of the regex part [\d\.]. -/
def isDigitDot (c : Char) : Bool := c.isDigit || c = '.'

/-- The regex tail \s*[話]?\s*[:：]?\s* that follows the digits. -/
def afterNumTail (l : List Char) : List Char :=
  let l := l.dropWhile isJsSpace
  let l := match l with
    | '話' :: r => r
    | _ => l
  let l := l.dropWhile isJsSpace
  let l := match l with
    | c :: r => if c = ':' || c = '：' then r else l
    | [] => l
  l.dropWhile isJsSpace

/-- The mandatory part [\d\.]+ of the regex followed by its tail; fails when
no digit or dot is present at the current position. -/
def matchNumPart (l : List Char) : Option (List Char) :=
  let ds := l.takeWhile isDigitDot
  if ds.isEmpty then none else some (afterNumTail (l.drop ds.length))

/-- One alternative of the marker group followed by \s* and the number part. -/
def tryMarker (w : List Char) (l : List Char) : Option (List Char) :=
  (dropPrefixCI w l).bind fun rest => matchNumPart (rest.dropWhile isJsSpace)

/-- The replace of src/unnamed/part_001 line 542: strip one leading match of
the pattern (ตอนที่|บทที่|Chapter|Episode|Ep|第)?\s*[\d\.]+\s*[話]?\s*[:：]?\s*
(the ^ anchor limits the g flag to a single replacement at position 0;
alternatives are tried in source order, then with the optional group empty). -/
def stripChapterMarker (s : String) : String :=
  match markerWords.findSome? (fun w => tryMarker w s.data) with
  | some rest => ⟨rest⟩
  | none =>
    match matchNumPart (s.data.dropWhile isJsSpace) with
    | some rest => ⟨rest⟩
    | none => s

/-- Final title of the auto branch in src/unnamed/part_001 lines 540-546:
candidate = data.title || data.originalTitle || "" (truthiness chain), then
trim, then strip the leading chapter marker; empty cleaned title falls back
to the bare default.  In the JS source a truthy non-string title would throw
at .trim(); the embedding stringifies instead, and the C5 theorem restricts
titles to strings, null and undefined, where both agree. -/
def autoFinalTitle (title originalTitle finalNumber : JsVal) : String :=
  let aiTitle := jsToString (jsOr title (jsOr originalTitle (.str "")))
  let cleaned := stripChapterMarker (jsTrim aiTitle)
  if cleaned = "" then "ตอนที่ " ++ jsToString finalNumber
  else "ตอนที่ " ++ jsToString finalNumber ++ " : " ++ cleaned

/-- Modelled from the spec (section 4.3, title rule): derive the candidate
from the AI title else the originalTitle (a supplied title is a non-empty
string), trim it, strip the leading chapter-marker pattern; if the cleaned
candidate is empty default to the bare "ตอนที่ n" form, else the
"ตอนที่ n : cleaned" form. -/
def specTitleDerivation (title originalTitle finalNumber : JsVal) : String :=
  let candidate :=
    match title with
    | .str s =>
      if s ≠ "" then s else
        match originalTitle with
        | .str t => t
        | _ => ""
    | _ =>
      match originalTitle with
      | .str t => t
      | _ => ""
  let cleaned := stripChapterMarker (jsTrim candidate)
  if cleaned = "" then "ตอนที่ " ++ jsToString finalNumber
  else "ตอนที่ " ++ jsToString finalNumber ++ " : " ++ cleaned

/-- Values that are a string, null or undefined (the shapes the provider is
instructed to return for title fields). -/
def strOrNullish (v : JsVal) : Prop :=
  v = JsVal.undef ∨ v = JsVal.null ∨ ∃ s, v = JsVal.str s

/-- Value of an HTML attribute: either plain text or, for a style attribute,
its parsed inline-style declaration list (property, value pairs). -/
inductive AttrVal where
  | plain (v : String)
  | style (decls : List (String × String))
deriving DecidableEq

/-- An HTML attribute as the sanitizer sees it. -/
structure HtmlAttr where
  name : String
  val : AttrVal
deriving DecidableEq

/-- HTML at the granularity the sanitizer filters it: a stream of text runs,
opening tags with attributes, and closing tags. -/
inductive Tok where
  | text (s : String)
  | tagOpen (tag : String) (attrs : List HtmlAttr)
  | tagClose (tag : String)
deriving DecidableEq

/-- The allowedTags option of sanitizeContent in src/unnamed/part_002
lines 373-375. -/
def allowedTags : List String :=
  ["b", "i", "em", "strong", "u", "p", "br", "hr", "img", "div", "span",
   "center", "h1", "h2", "h3"]

/-- Modelled from the spec: the sanitize-html library (not part of this
repository) removes a small set of non-text tags together with their inner
content; for every other disallowed tag only the tag itself is dropped and
the inner content kept. -/
def nonTextTags : List String := ["script", "style", "textarea", "option"]

/-- The allowedAttributes option of sanitizeContent in src/unnamed/part_002
lines 377-383: per-tag attribute allow-list; tags without an entry allow no
attributes. -/
def allowedAttrNames (tag : String) : List String :=
  if tag = "img" then ["src", "alt", "style", "width", "height"]
  else if tag = "p" then ["style", "align"]
  else if tag = "div" then ["style", "align"]
  else if tag = "span" then ["style"]
  else []

/-- Hex digit for the case-insensitive color regex. -/
def isHexDigitCI (c : Char) : Bool :=
  c.isDigit || ('a' ≤ c && c ≤ 'f') || ('A' ≤ c && c ≤ 'F')

/-- A non-empty run of case-insensitive hex digits. -/
def allHexCI (l : List Char) : Bool := !l.isEmpty && l.all isHexDigitCI

/-- The color regex of part_002 line 388, first alternative:
matches the anchored pattern of a hash, an optional 0x, then hex digits,
case-insensitively. -/
def isHexColor (s : String) : Bool :=
  match s.data with
  | '#' :: rest =>
    (match rest with
     | '0' :: c :: r => (c = 'x' || c = 'X') && allHexCI r
     | _ => false) || allHexCI rest
  | _ => false

/-- Literal prefix match (case-sensitive) returning the rest. -/
def dropLit : List Char → List Char → Option (List Char)
  | [], l => some l
  | _, [] => none
  | p :: ps, c :: cs => if c = p then dropLit ps cs else none

/-- The regex part \d{1,3}: one to three digits. -/
def takeDigits13 (l : List Char) : Option (List Char) :=
  let ds := l.takeWhile Char.isDigit
  if ds.length = 0 || ds.length > 3 then none else some (l.drop ds.length)

/-- The regex part \s*, between rgb components. -/
def dropComma (l : List Char) : Option (List Char) :=
  match l.dropWhile isJsSpace with
  | ',' :: r => some r
  | _ => none

/-- The color regex of part_002 line 388, second alternative: an anchored
rgb(d,d,d) pattern with optional spacing and 1-3 digit components. -/
def isRgbColor (s : String) : Bool :=
  (do
    let l ← dropLit "rgb(".data s.data
    let l ← takeDigits13 (l.dropWhile isJsSpace)
    let l ← dropComma l
    let l ← takeDigits13 (l.dropWhile isJsSpace)
    let l ← dropComma l
    let l ← takeDigits13 (l.dropWhile isJsSpace)
    match l.dropWhile isJsSpace with
    | [')'] => some ()
    | _ => none).isSome

/-- The font-size regex of part_002 line 390: digits followed by px, em
or the percent sign. -/
def isFontSize (s : String) : Bool :=
  let ds := s.data.takeWhile Char.isDigit
  let rest := s.data.drop ds.length
  !ds.isEmpty && (rest = ['p', 'x'] || rest = ['e', 'm'] || rest = ['%'])

/-- The allowedStyles option of sanitizeContent in part_002 lines 385-392:
color (hex or rgb), text-align (four keywords), font-size (px, em, percent),
for every tag (the option is keyed by the wildcard). -/
def allowedStyleDecl (prop v : String) : Bool :=
  (prop == "color" && (isHexColor v || isRgbColor v)) ||
  (prop == "text-align" && (v == "left" || v == "right" || v == "center" || v == "justify")) ||
  (prop == "font-size" && isFontSize v)

/-- Keep only the allow-listed declarations of a style attribute. -/
def filterStyleDecls (decls : List (String × String)) : List (String × String) :=
  decls.filter fun d => allowedStyleDecl d.1 d.2

/-- Modelled from the spec: per-attribute filtering of the sanitize-html
library under the part_002 options — an attribute survives exactly when its
name is in the tag's allow-list, and a surviving style attribute keeps only
its allow-listed declarations. -/
def sanitizeAttr (tag : String) (a : HtmlAttr) : Option HtmlAttr :=
  if a.name ∈ allowedAttrNames tag then
    match a.val with
    | .style decls => some { name := a.name, val := .style (filterStyleDecls decls) }
    | .plain v => some { name := a.name, val := .plain v }
  else none

/-- Modelled from the spec: the tag-level pass of the sanitize-html library
under the part_002 options.  The first argument is some t while the content
of a dropped non-text tag t is being discarded (until its closing tag), and
none otherwise.  Allowed tags are kept with filtered attributes, other tags
are dropped — with their content for non-text tags, keeping the content for
the rest. -/
def sanitizeAux : Option String → List Tok → List Tok
  | _, [] => []
  | some t, .tagClose u :: rest =>
    if u = t then sanitizeAux none rest else sanitizeAux (some t) rest
  | some t, .text _ :: rest => sanitizeAux (some t) rest
  | some t, .tagOpen _ _ :: rest => sanitizeAux (some t) rest
  | none, .text s :: rest => .text s :: sanitizeAux none rest
  | none, .tagOpen t attrs :: rest =>
    if t ∈ allowedTags then
      .tagOpen t (attrs.filterMap (sanitizeAttr t)) :: sanitizeAux none rest
    else if t ∈ nonTextTags then sanitizeAux (some t) rest
    else sanitizeAux none rest
  | none, .tagClose t :: rest =>
    if t ∈ allowedTags then .tagClose t :: sanitizeAux none rest
    else sanitizeAux none rest

/-- Modelled from the spec: the sanitize-html call of part_002 line 371 with
the options of lines 372-395, on the token-stream view of HTML. -/
def sanitizeHtmlModel (toks : List Tok) : List Tok := sanitizeAux none toks

/-- sanitizeContent of src/unnamed/part_002 lines 369-396: falsy input
(undefined, null or the empty string, here none or the empty stream) yields
the empty string, otherwise the sanitize-html call. -/
def sanitizeContent : Option (List Tok) → List Tok
  | none => []
  | some [] => []
  | some toks => sanitizeHtmlModel toks

/-- Tokens that the sanitizer emits: allowed tags whose attribute list is a
fixed point of attribute filtering, allowed closing tags, and text. -/
def CleanTok : Tok → Prop
  | .text _ => True
  | .tagOpen t attrs => t ∈ allowedTags ∧ attrs.filterMap (sanitizeAttr t) = attrs
  | .tagClose t => t ∈ allowedTags

/-- The favorites toggle of POST /novel/:id/favorite in src/unnamed/part_002
lines 318-336 (identical in part_000 and part_001): indexOf, then push when
the index is -1 (returning isFav = true) and splice of the found index
(the first occurrence) otherwise (returning isFav = false). -/
def toggleFavorite (favorites : List String) (novelId : String) : List String × Bool :=
  if novelId ∈ favorites then (favorites.erase novelId, false)
  else (favorites ++ [novelId], true)

/-- The denormalized lastChapter summary stored on a Novel
(src/models/Novel.js lines 22-26). -/
structure LastChapterInfo where
  chapterNumber : JsVal
  title : String
  updatedAt : Nat
deriving DecidableEq

/-- The fields of a Novel row that the chapter-creation routes read or
write; timestamps are clock values embedded as Nat. -/
structure NovelRec where
  title : String
  views : Int
  updatedAt : Nat
  lastChapter : Option LastChapterInfo
deriving DecidableEq

/-- The fields of a Chapter row written by the chapter-creation routes.
chapterNumber is kept as the JsVal the route supplied (mongoose casting to
Number happens at persistence and is not consulted by the claims). -/
structure ChapterRec where
  chapterNumber : JsVal
  title : String
  translatedContent : List Tok
deriving DecidableEq

/-- POST /novel/:id/chapters of src/unnamed/part_002 lines 398-435: the file
content overrides manualTranslated, the content is sanitized, the chapter is
created (part_002 stores manualChapterNumber with no fallback), and the
parent novel is updated with updatedAt = now and the lastChapter rollup
built from the new chapter and now (both new Date() calls of lines 419-423
are embedded as the single clock value now). -/
def part002CreateChapter (novel : NovelRec)
    (manualTitle manualChapterNumber : JsVal)
    (manualTranslated fileContent : Option (List Tok)) (now : Nat) :
    ChapterRec × NovelRec :=
  let content := match fileContent with
    | some f => some f
    | none => manualTranslated
  let cleanContent := sanitizeContent content
  let newChapter : ChapterRec :=
    { chapterNumber := manualChapterNumber
      title := if truthy manualTitle then jsToString manualTitle
               else "ตอนที่ " ++ jsToString manualChapterNumber
      translatedContent := cleanContent }
  let updatedNovel : NovelRec :=
    { novel with
      updatedAt := now
      lastChapter := some { chapterNumber := newChapter.chapterNumber
                            title := newChapter.title
                            updatedAt := now } }
  (newChapter, updatedNovel)

/-- The manual branch of POST /novel/:id/chapters in src/server.js
lines 211-221: the chapter is created with manualChapterNumber || nextNumber
and the default title, and the parent novel is not touched at all. -/
def serverJsManualCreate (novel : NovelRec) (chapters : List Int)
    (manualTitle manualChapterNumber : JsVal) (manualTranslated : List Tok) :
    ChapterRec × NovelRec :=
  let newChapter : ChapterRec :=
    { chapterNumber := manualAssignedNumber manualChapterNumber chapters
      title := if truthy manualTitle then jsToString manualTitle
               else "ตอนที่ " ++ jsToString (manualAssignedNumber manualChapterNumber chapters)
      translatedContent := manualTranslated }
  (newChapter, novel)

/-- Sample parsed provider response used by concrete witnesses. -/
def sampleGenData : GenData :=
  { chapterNumber := .num 5, title := .str "再会", originalTitle := .null
    translatedContent := .str "เนื้อหา" }

/-- Provider stub that fails with retryable errors on the first two attempts
and succeeds on the third. -/
def stubFailTwice : Nat → Except JsError String := fun i =>
  if i = 0 then .error { message := "429 Too Many Requests" }
  else if i = 1 then .error { message := "503 Service Unavailable" }
  else .ok "{}"

/-- Provider stub that fails with a retryable error on every attempt. -/
def stubAlwaysRetryableFail : Nat → Except JsError String := fun i =>
  if i = 0 then .error { message := "429 Too Many Requests" }
  else if i = 1 then .error { message := "503 Service Unavailable" }
  else .error { message := "Quota exceeded" }

/-- Provider stub that always fails with a non-retryable error. -/
def stubFatalFail : Nat → Except JsError String :=
  fun _ => .error { message := "TypeError: boom" }

/-- Parse stub accepting every response text. -/
def stubParse : String → Except JsError GenData := fun _ => .ok sampleGenData

/-- Concrete sanitizer input used by the sanitizer witness: a p tag with one
allowed and one disallowed style declaration and a disallowed attribute,
a text run, and a script element. -/
def sanitizeWitnessInput : List Tok :=
  [Tok.tagOpen "p"
     [{ name := "style", val := .style [("color", "#ff0000"), ("position", "absolute")] },
      { name := "onclick", val := .plain "evil()" }],
   Tok.text "hello",
   Tok.tagOpen "script" [], Tok.text "alert(1)", Tok.tagClose "script",
   Tok.tagClose "p"]

/-- Concrete novel row used by the rollup counterexample. -/
def novelNoRollup : NovelRec :=
  { title := "Isekai Tale", views := 7, updatedAt := 0, lastChapter := none }

end NovelTranslator

namespace NovelTranslator

/-- Filtering the declarations of a style attribute is idempotent. -/
theorem filterStyleDecls_idem (decls : List (String × String)) :
    filterStyleDecls (filterStyleDecls decls) = filterStyleDecls decls := by
  induction decls with
  | nil => rfl
  | cons d rest ih =>
    by_cases h : allowedStyleDecl d.1 d.2 = true
    · simp [filterStyleDecls, List.filter_cons, h, ih]
    · simp [filterStyleDecls, List.filter_cons, h, ih]

/-- An attribute the sanitizer emitted is unchanged by sanitizing it again. -/
theorem sanitizeAttr_fix {t : String} {a b : HtmlAttr}
    (h : sanitizeAttr t a = some b) : sanitizeAttr t b = some b := by
  by_cases hn : a.name ∈ allowedAttrNames t
  · cases hv : a.val with
    | style decls =>
      simp [sanitizeAttr, hn, hv] at h
      subst h
      simp [sanitizeAttr, hn, filterStyleDecls_idem]
    | plain v =>
      simp [sanitizeAttr, hn, hv] at h
      subst h
      simp [sanitizeAttr, hn]
  · simp [sanitizeAttr, hn] at h

/-- Attribute filtering is idempotent. -/
theorem filterMap_sanitizeAttr_idem (t : String) (attrs : List HtmlAttr) :
    (attrs.filterMap (sanitizeAttr t)).filterMap (sanitizeAttr t) =
      attrs.filterMap (sanitizeAttr t) := by
  induction attrs with
  | nil => rfl
  | cons a rest ih =>
    cases h : sanitizeAttr t a with
    | none => simp [List.filterMap_cons, h, ih]
    | some b => simp [List.filterMap_cons, h, sanitizeAttr_fix h, ih]

/-- Every attribute the sanitizer emits has an allow-listed name for its tag,
and when it is a style attribute all its declarations are allow-listed. -/
theorem sanitizeAttr_good {t : String} {a b : HtmlAttr}
    (h : sanitizeAttr t a = some b) :
    b.name ∈ allowedAttrNames t ∧
      ∀ decls, b.val = .style decls → ∀ d ∈ decls, allowedStyleDecl d.1 d.2 = true := by
  by_cases hn : a.name ∈ allowedAttrNames t
  · cases hv : a.val with
    | style decls =>
      simp [sanitizeAttr, hn, hv] at h
      subst h
      refine ⟨hn, ?_⟩
      intro ds hds d hd
      simp only [AttrVal.style.injEq] at hds
      subst hds
      exact (List.mem_filter.mp hd).2
    | plain v =>
      simp [sanitizeAttr, hn, hv] at h
      subst h
      exact ⟨hn, fun ds hds => by cases hds⟩
  · simp [sanitizeAttr, hn] at h

/-- Every token the tag-level pass emits is clean, in every skipping state. -/
theorem sanitizeAux_clean (l : List Tok) :
    ∀ mode tok, tok ∈ sanitizeAux mode l → CleanTok tok := by
  induction l with
  | nil =>
    intro mode tok h
    cases mode <;> simp [sanitizeAux] at h
  | cons head rest ih =>
    intro mode tok h
    cases mode with
    | some t =>
      cases head with
      | tagClose u =>
        by_cases hu : u = t
        · simp [sanitizeAux, hu] at h
          exact ih none tok h
        · simp [sanitizeAux, hu] at h
          exact ih (some t) tok h
      | text s =>
        simp [sanitizeAux] at h
        exact ih (some t) tok h
      | tagOpen u attrs =>
        simp [sanitizeAux] at h
        exact ih (some t) tok h
    | none =>
      cases head with
      | text s =>
        simp [sanitizeAux] at h
        rcases h with rfl | h
        · exact trivial
        · exact ih none tok h
      | tagOpen t attrs =>
        by_cases ht : t ∈ allowedTags
        · simp [sanitizeAux, ht] at h
          rcases h with rfl | h
          · exact ⟨ht, filterMap_sanitizeAttr_idem t attrs⟩
          · exact ih none tok h
        · by_cases hnt : t ∈ nonTextTags
          · simp [sanitizeAux, ht, hnt] at h
            exact ih (some t) tok h
          · simp [sanitizeAux, ht, hnt] at h
            exact ih none tok h
      | tagClose t =>
        by_cases ht : t ∈ allowedTags
        · simp [sanitizeAux, ht] at h
          rcases h with rfl | h
          · exact ht
          · exact ih none tok h
        · simp [sanitizeAux, ht] at h
          exact ih none tok h

/-- The tag-level pass leaves a stream of clean tokens unchanged. -/
theorem sanitizeAux_of_clean (l : List Tok) (h : ∀ tok ∈ l, CleanTok tok) :
    sanitizeAux none l = l := by
  induction l with
  | nil => rfl
  | cons head rest ih =>
    have hh := h head (List.mem_cons_self _ _)
    have hr : ∀ tok ∈ rest, CleanTok tok := fun tok ht => h tok (List.mem_cons_of_mem _ ht)
    cases head with
    | text s => simp [sanitizeAux, ih hr]
    | tagOpen t attrs =>
      obtain ⟨ht, hfix⟩ := hh
      simp [sanitizeAux, ht, hfix, ih hr]
    | tagClose t =>
      have ht : t ∈ allowedTags := hh
      simp [sanitizeAux, ht, ih hr]

/-- The modelled sanitize-html call is idempotent. -/
theorem sanitizeHtmlModel_idem (l : List Tok) :
    sanitizeHtmlModel (sanitizeHtmlModel l) = sanitizeHtmlModel l :=
  sanitizeAux_of_clean _ (sanitizeAux_clean l none)

/-- C7: the sanitizer is idempotent — sanitizing already-sanitized content
returns it unchanged, for every input including the falsy ones. -/
theorem sanitize_idempotent (x : Option (List Tok)) :
    sanitizeContent (some (sanitizeContent x)) = sanitizeContent x := by
  have key : ∀ l : List Tok,
      sanitizeContent (some (sanitizeHtmlModel l)) = sanitizeHtmlModel l := by
    intro l
    cases hs : sanitizeHtmlModel l with
    | nil => rfl
    | cons y ys =>
      show sanitizeHtmlModel (y :: ys) = y :: ys
      rw [← hs, sanitizeHtmlModel_idem]
  match x with
  | none => rfl
  | some [] => rfl
  | some (tok :: toks) =>
    show sanitizeContent (some (sanitizeHtmlModel (tok :: toks))) =
      sanitizeHtmlModel (tok :: toks)
    exact key (tok :: toks)

/-- C6: every opening tag in the sanitizer's output is allow-listed (so no
script tag survives), its attributes have allow-listed names for the tag and
carry only allow-listed style declarations, every closing tag is
allow-listed, falsy input yields empty output, and a script element's
content is dropped rather than kept as markup. -/
theorem sanitize_output_allowlisted (x : Option (List Tok)) (t : String)
    (attrs : List HtmlAttr) (a : HtmlAttr) (decls : List (String × String)) :
    (Tok.tagOpen t attrs ∈ sanitizeContent x →
      t ∈ allowedTags ∧
        (a ∈ attrs → a.name ∈ allowedAttrNames t ∧
          (a.val = .style decls → ∀ d ∈ decls, allowedStyleDecl d.1 d.2 = true))) ∧
    (Tok.tagClose t ∈ sanitizeContent x → t ∈ allowedTags) ∧
    sanitizeContent none = [] ∧
    sanitizeContent (some []) = [] ∧
    sanitizeContent (some [Tok.tagOpen "script" [], Tok.text "alert(1)",
      Tok.tagClose "script"]) = [] := by
  have hmem : ∀ tok ∈ sanitizeContent x, CleanTok tok := by
    match x with
    | none => intro tok h; simp [sanitizeContent] at h
    | some [] => intro tok h; simp [sanitizeContent] at h
    | some (y :: ys) => exact fun tok h => sanitizeAux_clean (y :: ys) none tok h
  refine ⟨?_, ?_, rfl, rfl, by decide⟩
  · intro hopen
    obtain ⟨ht, hfix⟩ := hmem _ hopen
    refine ⟨ht, fun ha => ?_⟩
    rw [← hfix] at ha
    obtain ⟨a0, _, ha0⟩ := List.mem_filterMap.mp ha
    have hgood := sanitizeAttr_good ha0
    exact ⟨hgood.1, fun hv => hgood.2 decls hv⟩
  · intro hclose
    exact hmem _ hclose

/-- Witness for C6 at a concrete input: the surviving p tag, its surviving
style attribute and that attribute's surviving color declaration are all
allow-listed. -/
theorem sanitize_output_allowlisted_witness :
    "p" ∈ allowedTags ∧ "style" ∈ allowedAttrNames "p" ∧
      (∀ d ∈ [("color", "#ff0000")], allowedStyleDecl d.1 d.2 = true) := by
  have h := (sanitize_output_allowlisted (some sanitizeWitnessInput) "p"
    [{ name := "style", val := .style [("color", "#ff0000")] }]
    { name := "style", val := .style [("color", "#ff0000")] }
    [("color", "#ff0000")]).1 (by decide)
  exact ⟨h.1, (h.2 (by decide)).1, (h.2 (by decide)).2 rfl⟩

/-- The maximum chapter number of a nonempty chapter list is one of its
elements. -/
theorem maxChapterNumber_mem {l : List Int} {m : Int}
    (h : maxChapterNumber l = some m) : m ∈ l := by
  induction l generalizing m with
  | nil => simp [maxChapterNumber] at h
  | cons x xs ih =>
    cases hx : maxChapterNumber xs with
    | none =>
      simp [maxChapterNumber, hx] at h
      simp [← h]
    | some m2 =>
      simp [maxChapterNumber, hx] at h
      rcases max_choice x m2 with hmx | hmx <;> rw [hmx] at h
      · simp [← h]
      · exact List.mem_cons_of_mem _ (h ▸ ih hx)

/-- When every existing chapter number is non-negative, nextNumber is at
least 1. -/
theorem nextNumber_pos {l : List Int} (h : ∀ c ∈ l, 0 ≤ c) : 1 ≤ nextNumber l := by
  unfold nextNumber
  cases hx : maxChapterNumber l with
  | none => norm_num
  | some m =>
    have hm : 0 ≤ m := h m (maxChapterNumber_mem hx)
    show 1 ≤ m + 1
    omega

/-- C1: in manual mode with no chapter number supplied (the body field is
undefined), the created chapter receives nextNumber: 1 when the novel has no
chapters, and the maximum existing chapter number plus 1 otherwise — gaps in
the existing numbering are preserved because only the maximum is consulted. -/
theorem manual_next_number_when_absent (chapters : List Int) (m : Int) :
    (chapters = [] → manualAssignedNumber .undef chapters = .num 1) ∧
    (maxChapterNumber chapters = some m →
      manualAssignedNumber .undef chapters = .num (m + 1)) := by
  constructor
  · rintro rfl; rfl
  · intro h
    simp [manualAssignedNumber, jsOr, truthy, nextNumber, h]

/-- Witness for C1: a novel with no chapters yields 1, and the gappy
chapter list 1, 2, 4 has maximum 4 and yields 5. -/
theorem manual_next_number_when_absent_witness :
    manualAssignedNumber .undef [] = .num 1 ∧
    maxChapterNumber [1, 2, 4] = some 4 ∧
    manualAssignedNumber .undef [1, 2, 4] = .num (4 + 1) :=
  ⟨(manual_next_number_when_absent [] 0).1 rfl, by decide,
    (manual_next_number_when_absent [1, 2, 4] 4).2 (by decide)⟩

/-- C10 (amended): a supplied chapter number of 0 or the empty string is
falsy, so the manual branch of src/server.js stores nextNumber instead; the
stored number can be 0 only in the degenerate state where the maximum
existing chapter number is -1 — in particular it is never 0 when every
existing chapter number is non-negative. -/
theorem manual_falsy_number_fallback (chapters : List Int) (supplied : JsVal)
    (h : supplied = .num 0 ∨ supplied = .str "") :
    manualAssignedNumber supplied chapters = .num (nextNumber chapters) ∧
    ((∀ c ∈ chapters, 0 ≤ c) → manualAssignedNumber supplied chapters ≠ .num 0) := by
  have hfalsy : truthy supplied = false := by rcases h with rfl | rfl <;> rfl
  have heq : manualAssignedNumber supplied chapters = .num (nextNumber chapters) := by
    simp [manualAssignedNumber, jsOr, hfalsy]
  refine ⟨heq, fun hnn => ?_⟩
  rw [heq]
  intro hcontra
  have hpos := nextNumber_pos hnn
  simp only [JsVal.num.injEq] at hcontra
  omega

/-- Witness for C10: a supplied 0 on the chapter list 1, 2, 4 stores
nextNumber (= 5), which is not 0. -/
theorem manual_falsy_number_fallback_witness :
    manualAssignedNumber (.num 0) [1, 2, 4] = .num (nextNumber [1, 2, 4]) ∧
    manualAssignedNumber (.num 0) [1, 2, 4] ≠ .num 0 :=
  ⟨(manual_falsy_number_fallback [1, 2, 4] (.num 0) (Or.inl rfl)).1,
    (manual_falsy_number_fallback [1, 2, 4] (.num 0) (Or.inl rfl)).2 (by decide)⟩

/-- C10 counterexample: with a single existing chapter numbered -1 the
fallback nextNumber is -1 + 1 = 0, so a supplied 0 does produce a chapter
numbered 0, refuting the never-0 part of the claim. -/
theorem manual_zero_with_negative_max_counterexample :
    manualAssignedNumber (.num 0) [-1] = .num (nextNumber [-1]) ∧
    manualAssignedNumber (.num 0) [-1] = .num 0 :=
  ⟨by decide, by decide⟩

/-- C2 (amended): the classifying generateWithRetry of src/unnamed/part_001
propagates a non-retryable error of the first attempt immediately — exactly
one provider call, no sleep.  (The src/server.js variant instead retries
every error; see the counterexample.) -/
theorem classified_retry_fatal_first_attempt
    (gen : Nat → Except JsError String) (parse : String → Except JsError GenData)
    (retries : Nat) (e : JsError)
    (hpos : 0 < retries)
    (h : (gen 0).bind parse = .error e)
    (hfatal : isRetryable e = false) :
    generateWithRetryClassified gen parse retries =
      { outcome := .err e, calls := 1, sleeps := 0 } := by
  obtain ⟨r, rfl⟩ : ∃ r, retries = r + 1 := ⟨retries - 1, (Nat.succ_pred_eq_of_pos hpos).symm⟩
  simp [generateWithRetryClassified, loopClassified, h, hfatal]

/-- Witness for C2: the classifying variant with an always-fatally-failing
provider stub stops after one call. -/
theorem classified_retry_fatal_first_attempt_witness :
    generateWithRetryClassified stubFatalFail stubParse 3 =
      { outcome := .err { message := "TypeError: boom" }, calls := 1, sleeps := 0 } :=
  classified_retry_fatal_first_attempt stubFatalFail stubParse 3 _ (by decide) rfl (by decide)

/-- C2 counterexample: the generateWithRetry of src/server.js lines 59-71
performs 3 provider calls and 2 sleeps on a provider that always fails with
the non-retryable error, instead of propagating it after the first attempt. -/
theorem naive_retry_nonretryable_counterexample :
    generateWithRetryNaive stubFatalFail stubParse 3 =
      { outcome := .err { message := "TypeError: boom" }, calls := 3, sleeps := 2 } ∧
    (generateWithRetryNaive stubFatalFail stubParse 3).calls ≠ 1 := by
  constructor <;> decide

/-- C3: with maxAttempts = 3, a provider failing retryably on the first two
attempts and succeeding on the third makes generateWithRetry (both the
part_001 and the server.js variant) return the third response's text parsed
as JSON after exactly 3 provider calls; and when every attempt fails (the
first two retryably), the error of the last attempt is re-raised after
exactly 3 provider calls. -/
theorem retry_three_attempts_behavior
    (gen : Nat → Except JsError String) (parse : String → Except JsError GenData)
    (e0 e1 e2 : JsError) (t : String) (d : GenData)
    (h0 : gen 0 = .error e0) (hr0 : isRetryable e0 = true)
    (h1 : gen 1 = .error e1) (hr1 : isRetryable e1 = true) :
    (gen 2 = .ok t → parse t = .ok d →
      generateWithRetryClassified gen parse 3 =
        { outcome := .ok (some d), calls := 3, sleeps := 2 } ∧
      generateWithRetryNaive gen parse 3 =
        { outcome := .ok (some d), calls := 3, sleeps := 2 }) ∧
    ((gen 2).bind parse = .error e2 →
      generateWithRetryClassified gen parse 3 =
        { outcome := .err e2, calls := 3, sleeps := 2 } ∧
      generateWithRetryNaive gen parse 3 =
        { outcome := .err e2, calls := 3, sleeps := 2 }) := by
  constructor
  · intro h2 hp
    constructor <;>
      simp [generateWithRetryClassified, generateWithRetryNaive, loopClassified, loopNaive,
        Except.bind, h0, h1, h2, hp, hr0, hr1]
  · intro h2
    cases hg : gen 2 with
    | error ee =>
      rw [hg] at h2
      simp only [Except.bind, Except.error.injEq] at h2
      subst h2
      constructor <;>
        simp [generateWithRetryClassified, generateWithRetryNaive, loopClassified, loopNaive,
          Except.bind, h0, h1, hg, hr0, hr1, ite_self]
    | ok v =>
      rw [hg] at h2
      simp only [Except.bind] at h2
      constructor <;>
        simp [generateWithRetryClassified, generateWithRetryNaive, loopClassified, loopNaive,
          Except.bind, h0, h1, hg, h2, hr0, hr1, ite_self]

/-- Witness for C3: concrete stubs — fail retryably twice then succeed, and
fail retryably on all three attempts. -/
theorem retry_three_attempts_behavior_witness :
    (generateWithRetryClassified stubFailTwice stubParse 3 =
        { outcome := .ok (some sampleGenData), calls := 3, sleeps := 2 } ∧
      generateWithRetryNaive stubFailTwice stubParse 3 =
        { outcome := .ok (some sampleGenData), calls := 3, sleeps := 2 }) ∧
    (generateWithRetryClassified stubAlwaysRetryableFail stubParse 3 =
        { outcome := .err { message := "Quota exceeded" }, calls := 3, sleeps := 2 } ∧
      generateWithRetryNaive stubAlwaysRetryableFail stubParse 3 =
        { outcome := .err { message := "Quota exceeded" }, calls := 3, sleeps := 2 }) :=
  ⟨(retry_three_attempts_behavior stubFailTwice stubParse _ _ ⟨"Quota exceeded"⟩ "{}"
      sampleGenData rfl (by decide) rfl (by decide)).1 rfl rfl,
    (retry_three_attempts_behavior stubAlwaysRetryableFail stubParse _ _ ⟨"Quota exceeded"⟩
      "{}" sampleGenData rfl (by decide) rfl (by decide)).2 rfl⟩

/-- C4 (amended): in the part_001 auto branch the created chapter's number
is the AI-provided chapterNumber whenever it is neither null nor undefined —
including 0 and string values — and nextNumber otherwise; for the chapter
list 1, 2, 3, 4 a null chapterNumber yields 5.  (The server.js auto branch
instead combines by truthiness; see the counterexample.) -/
theorem auto_final_number_part001 (q next : Int) (s : String) :
    finalChapterNumberAuto (.num q) next = .num q ∧
    finalChapterNumberAuto (.num 0) next = .num 0 ∧
    finalChapterNumberAuto (.str s) next = .str s ∧
    finalChapterNumberAuto .null next = .num next ∧
    finalChapterNumberAuto .undef next = .num next ∧
    finalChapterNumberAuto .null (nextNumber [1, 2, 3, 4]) = .num 5 :=
  ⟨rfl, rfl, rfl, rfl, rfl, by decide⟩

/-- C4 counterexample: the server.js auto branch computes
data.chapterNumber || nextNumber, so an AI-provided chapterNumber of 0 is
discarded in favour of nextNumber (here 5), refuting the including-0 part
of the claim for that route. -/
theorem server_auto_number_zero_counterexample :
    finalNumberServer (.num 0) (nextNumber [1, 2, 3, 4]) = .num 5 ∧
    finalNumberServer (.num 0) (nextNumber [1, 2, 3, 4]) ≠ .num 0 := by
  constructor <;> decide

/-- C5 (amended): in the part_001 auto branch the final title follows the
spec's derivation (candidate from the AI title else originalTitle, trimmed,
leading chapter marker stripped, with the bare default on an empty result);
in particular the marker 第5話： is stripped and the number-only title 第5話
cleans to empty.  (The server.js auto branch uses the AI title verbatim; see
the counterexample.) -/
theorem auto_final_title_part001
    (title originalTitle finalNumber : JsVal)
    (ht : strOrNullish title) (ho : strOrNullish originalTitle) :
    autoFinalTitle title originalTitle finalNumber =
      specTitleDerivation title originalTitle finalNumber ∧
    autoFinalTitle (.str "第5話：再会") .null (.num 5) = "ตอนที่ 5 : 再会" ∧
    autoFinalTitle .null (.str "第5話：再会") (.num 5) = "ตอนที่ 5 : 再会" ∧
    autoFinalTitle (.str " 第5話：再会 ") .null (.num 5) = "ตอนที่ 5 : 再会" ∧
    autoFinalTitle (.str "第5話") .null (.num 5) = "ตอนที่ 5" ∧
    autoFinalTitle .null .null (.num 5) = "ตอนที่ 5" := by
  refine ⟨?_, by decide, by decide, by decide, by decide, by decide⟩
  rcases ht with rfl | rfl | ⟨s, rfl⟩ <;> rcases ho with rfl | rfl | ⟨u, rfl⟩ <;>
    [skip; skip; skip; skip; skip; skip; skip; skip; skip] <;>
      first
        | rfl
        | (by_cases hs : s = "" <;> by_cases hu : u = "" <;>
            simp_all [autoFinalTitle, specTitleDerivation, jsOr, truthy, jsToString,
              bne_iff_ne, ne_eq])
        | (by_cases hs : s = "" <;>
            simp_all [autoFinalTitle, specTitleDerivation, jsOr, truthy, jsToString,
              bne_iff_ne, ne_eq])
        | (by_cases hu : u = "" <;>
            simp_all [autoFinalTitle, specTitleDerivation, jsOr, truthy, jsToString,
              bne_iff_ne, ne_eq])

/-- Witness for C5 at the end-to-end scenario input. -/
theorem auto_final_title_part001_witness :
    autoFinalTitle (.str "第5話：再会") .null (.num 5) =
      specTitleDerivation (.str "第5話：再会") .null (.num 5) ∧
    autoFinalTitle (.str "第5話：再会") .null (.num 5) = "ตอนที่ 5 : 再会" :=
  ⟨(auto_final_title_part001 (.str "第5話：再会") .null (.num 5)
      (Or.inr (Or.inr ⟨_, rfl⟩)) (Or.inr (Or.inl rfl))).1,
    (auto_final_title_part001 (.str "第5話：再会") .null (.num 5)
      (Or.inr (Or.inr ⟨_, rfl⟩)) (Or.inr (Or.inl rfl))).2.1⟩

/-- C5 counterexample: the server.js auto branch keeps the AI title
verbatim, so the leading 第5話： marker is not stripped there. -/
theorem server_auto_title_no_strip_counterexample :
    serverFinalTitle (.str "第5話：再会") (.num 5) = "ตอนที่ 5 : 第5話：再会" ∧
    serverFinalTitle (.str "第5話：再会") (.num 5) ≠ "ตอนที่ 5 : 再会" := by
  constructor <;> decide

/-- C8 (amended): the favorites toggle appends an absent novel (reporting
favorited) and removes the first occurrence of a present one (reporting
unfavorited), and never errors; two toggles restore the original membership
whenever the novel occurs at most once in the list — a property the toggle
itself preserves — while duplicate occurrences break the involution (see the
counterexample). -/
theorem toggle_favorite_behavior (favorites : List String) (novelId : String) :
    (novelId ∉ favorites → toggleFavorite favorites novelId = (favorites ++ [novelId], true)) ∧
    (novelId ∈ favorites → toggleFavorite favorites novelId = (favorites.erase novelId, false)) ∧
    (favorites.count novelId ≤ 1 →
      ((novelId ∈ (toggleFavorite (toggleFavorite favorites novelId).1 novelId).1) ↔
        novelId ∈ favorites)) ∧
    (favorites.count novelId ≤ 1 →
      (toggleFavorite favorites novelId).1.count novelId ≤ 1) := by
  refine ⟨fun h => ?_, fun h => ?_, fun hc => ?_, fun hc => ?_⟩
  · simp [toggleFavorite, h]
  · simp [toggleFavorite, h]
  · by_cases h : novelId ∈ favorites
    · have hone : favorites.count novelId = 1 :=
        le_antisymm hc (List.count_pos_iff.mpr h)
      have hzero : (favorites.erase novelId).count novelId = 0 := by
        rw [List.count_erase_self, hone]
      have hnot : novelId ∉ favorites.erase novelId := List.count_eq_zero.mp hzero
      simp [toggleFavorite, h, hnot]
    · have hmem : novelId ∈ favorites ++ [novelId] := by simp
      rw [show toggleFavorite favorites novelId = (favorites ++ [novelId], true) from by
        simp [toggleFavorite, h]]
      rw [show toggleFavorite (favorites ++ [novelId]) novelId =
          ((favorites ++ [novelId]).erase novelId, false) from by simp [toggleFavorite, hmem]]
      rw [show ((favorites ++ [novelId]).erase novelId, false).1 =
          (favorites ++ [novelId]).erase novelId from rfl]
      rw [List.erase_append_right _ h]
      simp [h]
  · by_cases h : novelId ∈ favorites
    · rw [show toggleFavorite favorites novelId = (favorites.erase novelId, false) from by
        simp [toggleFavorite, h]]
      show (favorites.erase novelId).count novelId ≤ 1
      rw [List.count_erase_self]
      omega
    · rw [show toggleFavorite favorites novelId = (favorites ++ [novelId], true) from by
        simp [toggleFavorite, h]]
      show (favorites ++ [novelId]).count novelId ≤ 1
      rw [List.count_append]
      have hz : favorites.count novelId = 0 := List.count_eq_zero.mpr h
      simp [hz, List.count_cons]

/-- Witness for C8: toggling an absent novel appends it, toggling a present
one removes it, and a double toggle on a duplicate-free list restores
membership. -/
theorem toggle_favorite_behavior_witness :
    toggleFavorite ["a"] "b" = (["a", "b"], true) ∧
    toggleFavorite ["a", "b"] "b" = (["a"], false) ∧
    (("b" ∈ (toggleFavorite (toggleFavorite ["a", "b"] "b").1 "b").1) ↔ "b" ∈ ["a", "b"]) :=
  ⟨(toggle_favorite_behavior ["a"] "b").1 (by decide),
    (toggle_favorite_behavior ["a", "b"] "b").2.1 (by decide),
    (toggle_favorite_behavior ["a", "b"] "b").2.2.1 (by decide)⟩

/-- C8 counterexample: with the duplicate favorites list n, n two toggles
remove both occurrences, so the original membership is not restored. -/
theorem toggle_duplicate_counterexample :
    "n" ∈ ["n", "n"] ∧
    "n" ∉ (toggleFavorite (toggleFavorite ["n", "n"] "n").1 "n").1 := by
  constructor <;> decide

/-- C9 (amended): the part_002 chapter-creation route updates the parent
novel on every successful creation — updatedAt becomes the creation time and
lastChapter holds exactly the new chapter's number and title with that
timestamp — while the other novel fields are preserved.  (The server.js
route does not update the parent novel at all; see the counterexample.) -/
theorem part002_rollup_update (novel : NovelRec) (manualTitle manualChapterNumber : JsVal)
    (manualTranslated fileContent : Option (List Tok)) (now : Nat) :
    ((part002CreateChapter novel manualTitle manualChapterNumber manualTranslated
        fileContent now).2.updatedAt = now) ∧
    ((part002CreateChapter novel manualTitle manualChapterNumber manualTranslated
        fileContent now).2.lastChapter =
      some { chapterNumber := (part002CreateChapter novel manualTitle manualChapterNumber
               manualTranslated fileContent now).1.chapterNumber
             title := (part002CreateChapter novel manualTitle manualChapterNumber
               manualTranslated fileContent now).1.title
             updatedAt := now }) ∧
    ((part002CreateChapter novel manualTitle manualChapterNumber manualTranslated
        fileContent now).2.title = novel.title) ∧
    ((part002CreateChapter novel manualTitle manualChapterNumber manualTranslated
        fileContent now).2.views = novel.views) :=
  ⟨rfl, rfl, rfl, rfl⟩

/-- C9 counterexample: the src/server.js chapter-creation route returns the
parent novel unchanged — its updatedAt stays 0 and it records no lastChapter
rollup for the chapter just created. -/
theorem serverjs_no_rollup_counterexample :
    (serverJsManualCreate novelNoRollup [4] (.str "ตอนพิเศษ") (.num 5) []).2 = novelNoRollup ∧
    (serverJsManualCreate novelNoRollup [4] (.str "ตอนพิเศษ") (.num 5) []).2.lastChapter = none ∧
    (serverJsManualCreate novelNoRollup [4] (.str "ตอนพิเศษ") (.num 5) []).2.updatedAt = 0 :=
  ⟨rfl, rfl, rfl⟩

end NovelTranslator
